/-
Verification of the pynut nutrition core (pynut.py): energy estimators
(calculate_bmr, calculate_tee), per-meal macro targets
(compute_target_macros_per_meal), the food scorer (score_menu) and the
exercise recommender (estimate_speed_bmi_age,
calories_to_exercise_with_distance).

Numbers are embedded as rationals (ℚ): every numeric literal in the source
is a decimal constant, so ℚ represents the intended arithmetic exactly.
Python float division `x / t` is total on ℚ (with `x / 0 = 0`); where a
claim is about division-by-zero failure, explicit `Option`-valued variants
(`pydiv`, the `..._checked` functions) model Python's ZeroDivisionError.
Python `round` is round-half-to-even (`pyround`, `pyround2`); Python
`str.lower` on the ASCII inputs at issue is `pyLower`.
-/
import Mathlib

namespace Pynut

/-! ### Data model

`NutrientRow` is one row of the DataFrame produced by `extract_nutrients_df`:
Food, FDC ID, Brand plus the seven numeric nutrient columns. -/

structure NutrientRow where
  food : String
  fdcId : Nat
  brand : String
  calories : ℚ
  protein : ℚ
  fat : ℚ
  carbs : ℚ
  sugar : ℚ
  fiber : ℚ
  sodium : ℚ
deriving DecidableEq

/-- The dict returned by `compute_target_macros_per_meal`:
keys "Protein (g)", "Fat (g)", "Carbs (g)". -/
structure MacroTargets where
  protein : ℚ
  fat : ℚ
  carbs : ℚ
deriving DecidableEq

/-- A `NutrientRow` together with the five score columns that `score_menu`
adds to the DataFrame. -/
structure ScoredRow where
  row : NutrientRow
  caloriesScore : ℚ
  proteinScore : ℚ
  fatScore : ℚ
  carbsScore : ℚ
  totalScore : ℚ
deriving DecidableEq

/-! ### Python primitives used by the source -/

/-- Python `str.lower` restricted to ASCII letters (the only characters in
the gender strings the code compares): lowercases `'A'..'Z'`, leaves
everything else unchanged. -/
def pyLowerChar (c : Char) : Char :=
  if 'A' ≤ c ∧ c ≤ 'Z' then Char.ofNat (c.toNat + 32) else c

/-- Python `str.lower` (ASCII). -/
def pyLower (s : String) : String :=
  ⟨s.data.map pyLowerChar⟩

/-- Python `round(x)`: round half to even (banker's rounding). -/
def pyround (x : ℚ) : ℤ :=
  let n := ⌊x⌋
  let frac := x - (n : ℚ)
  if frac < 1 / 2 then n
  else if 1 / 2 < frac then n + 1
  else if n % 2 = 0 then n else n + 1

/-- Python `round(x, 2)`: round half to even at two decimal places. -/
def pyround2 (x : ℚ) : ℚ :=
  (pyround (x * 100) : ℚ) / 100

/-- Python division returning `None` exactly when the denominator is zero,
modelling `ZeroDivisionError` (Python raises it for `x / 0.0` as well as
for integer division by zero). -/
def pydiv (x t : ℚ) : Option ℚ :=
  if t = 0 then none else some (x / t)

/-! ### EnergyEstimator: calculate_bmr (pynut.py lines 345-350)

Source:
    def calculate_bmr(gender, age, height, weight):
        if gender.lower() == "male":
            return 88.362 + (13.397 * weight) + (4.799 * height) - (5.677 * age)
        else:
            return 10 * weight + 6.25 * height - 5 * age - 161
            return 447.593 + ...   # unreachable (dead code after return)
-/

def calculate_bmr (gender : String) (age height weight : ℚ) : ℚ :=
  if pyLower gender = "male" then
    88.362 + (13.397 * weight) + (4.799 * height) - (5.677 * age)
  else
    10 * weight + 6.25 * height - 5 * age - 161

/-! ### EnergyEstimator: calculate_tee (pynut.py lines 126-179)

Direct transcription of the nested if/elif/else decision table. Gender is
compared with `== 'male'` (case-sensitive, unlike `calculate_bmr`); the
activity level is compared against the literal strings `'inactive'`,
`'low active'`, `'active'`, any other string taking the final `else`
("very active or unknown") branch. -/

def calculate_tee (gender : String) (age height weight : ℚ)
    (activity_level : String) : ℚ :=
  if gender = "male" then
    if age ≤ 2 then
      -716.45 - (1.00 * age) + (17.82 * height) + (15.06 * weight)
    else if age < 19 then
      if activity_level = "inactive" then
        -447.51 - 3.68 * age + 13.01 * height + 13.15 * weight
      else if activity_level = "low active" then
        19.12 + 3.68 * age + 8.62 * height + 20.28 * weight
      else if activity_level = "active" then
        -388.19 + 3.68 * age + 12.66 * height + 20.46 * weight
      else
        -671.75 + 3.68 * age + 15.38 * height + 23.25 * weight
    else
      if activity_level = "inactive" then
        753.07 - 10.83 * age + 6.50 * height + 14.10 * weight
      else if activity_level = "low active" then
        581.47 - 10.83 * age + 8.30 * height + 14.94 * weight
      else if activity_level = "active" then
        1004.82 - 10.83 * age + 6.52 * height + 15.91 * weight
      else
        -517.88 - 10.83 * age + 15.61 * height + 19.11 * weight
  else
    if age ≤ 2 then
      -69.15 + 80.0 * age + 2.65 * height + 54.15 * weight
    else if age < 19 then
      if activity_level = "inactive" then
        55.59 - 22.25 * age + 8.43 * height + 17.07 * weight
      else if activity_level = "low active" then
        -297.54 - 22.25 * age + 12.77 * height + 14.73 * weight
      else if activity_level = "active" then
        -189.55 - 22.25 * age + 11.74 * height + 18.34 * weight
      else
        -709.59 - 22.25 * age + 18.22 * height + 14.25 * weight
    else
      if activity_level = "inactive" then
        584.90 - 7.01 * age + 5.72 * height + 11.71 * weight
      else if activity_level = "low active" then
        575.77 - 7.01 * age + 6.60 * height + 12.14 * weight
      else if activity_level = "active" then
        710.25 - 7.01 * age + 6.54 * height + 12.34 * weight
      else
        511.83 - 7.01 * age + 9.07 * height + 12.56 * weight

/-! ### MacroTargetCalculator (pynut.py lines 190-195) -/

def compute_target_macros_per_meal (tee : ℚ) : MacroTargets :=
  { protein := tee * 0.4 / 4 / 3
    fat := tee * 0.3 / 9 / 3
    carbs := tee * 0.3 / 4 / 3 }

/-! ### FoodScorer: score_menu (pynut.py lines 207-234)

Source helpers:
    def bounded_score(x, t): return min(x / t, 1)
    def penalized_score(x, t): return max(0, 2 - x / t) if x > t else x / t
-/

def bounded_score (x t : ℚ) : ℚ := min (x / t) 1

def penalized_score (x t : ℚ) : ℚ :=
  if x > t then max 0 (2 - x / t) else x / t

/-- The weight list selected by `{"muscle_gain": [...], "fat_loss": [...]}[goal]`
in `score_menu`: entries are [calories, protein, fat, carbs]. -/
structure Weights where
  calories : ℚ
  protein : ℚ
  fat : ℚ
  carbs : ℚ
deriving DecidableEq

/-- The dict lookup `weights = {...}[goal]`: a missing key raises KeyError in
Python, embedded as `none`. -/
def goalWeights (goal : String) : Option Weights :=
  if goal = "muscle_gain" then some ⟨0.2, 0.4, 0.2, 0.2⟩
  else if goal = "fat_loss" then some ⟨0.3, 0.4, 0.3, 0.2⟩
  else none

/-- One row of `score_menu`'s column computations: the four `.apply` lines
(Calories Score against `tee`, the macro scores against `targets`) and the
weighted "Total Score" column. -/
def scoreRow (targets : MacroTargets) (tee : ℚ) (w : Weights)
    (r : NutrientRow) : ScoredRow :=
  let cs := penalized_score r.calories tee
  let ps := bounded_score r.protein targets.protein
  let fs := penalized_score r.fat targets.fat
  let bs := penalized_score r.carbs targets.carbs
  ⟨r, cs, ps, fs, bs,
    cs * w.calories + ps * w.protein + fs * w.fat + bs * w.carbs⟩

/-- Ascending comparison on "Total Score", the sort key of
`df.sort_values("Total Score", ascending=False)`. -/
def scoreLE (a b : ScoredRow) : Prop := a.totalScore ≤ b.totalScore

instance : DecidableRel scoreLE :=
  fun a b => inferInstanceAs (Decidable (a.totalScore ≤ b.totalScore))

instance : IsTotal ScoredRow scoreLE := ⟨fun a b => le_total a.totalScore b.totalScore⟩

instance : IsTrans ScoredRow scoreLE := ⟨fun _ _ _ h1 h2 => le_trans h1 h2⟩

/-- `df.sort_values("Total Score", ascending=False)`.

pandas computes a descending sort as an ascending argsort of the key column
followed by reversal of the resulting indexer (`pandas.core.sorting.nargsort`:
`indexer = non_nans.argsort(kind=kind)`, then `if not ascending: indexer =
indexer[::-1]`). The default `kind='quicksort'` maps to numpy's introsort,
which runs plain (stable) insertion sort for arrays shorter than 16 elements
— every table this development evaluates concretely. So the embedding is:
stable insertion sort ascending by Total Score, then reverse. In particular
rows with equal Total Score come out in REVERSED input order, not input
order. -/
def sort_values_desc (l : List ScoredRow) : List ScoredRow :=
  (List.insertionSort scoreLE l).reverse

/-- `score_menu(df, targets, tee, goal)`: add the four nutrient score columns
and the weighted Total Score column, then sort descending by Total Score.
An unknown `goal` raises KeyError at the weights lookup (`none` here); on ℚ
the column arithmetic itself is total, so the relative order of the lookup
and the `.apply` calls does not matter. -/
def score_menu (df : List NutrientRow) (targets : MacroTargets) (tee : ℚ)
    (goal : String) : Option (List ScoredRow) :=
  (goalWeights goal).map fun w => sort_values_desc (df.map (scoreRow targets tee w))

/-! ### ExerciseRecommender (pynut.py lines 281-297 and 310-331) -/

/-- `base_speeds.get(activity, 5.0)`: the dict of base speeds with default
5.0 for an unknown activity. -/
def base_speeds (activity : String) : ℚ :=
  if activity = "Running" then 9.0
  else if activity = "Swimming" then 3.0
  else if activity = "Cycling" then 15.0
  else if activity = "Walking" then 5.0
  else 5.0

def estimate_speed_bmi_age (activity : String) (bmi age : ℚ) : ℚ :=
  let speed := base_speeds activity
  let speed := if bmi > 25 then speed * 0.9 else speed
  let speed := if age > 40 then speed * 0.95 else speed
  pyround2 speed

/-- One value of the dict returned by `calories_to_exercise_with_distance`:
`{"time_min": round(minutes), "distance_km": round(distance, 2),
"speed_kmh": speed}`. -/
structure ExerciseEntry where
  time_min : ℤ
  distance_km : ℚ
  speed_kmh : ℚ
deriving DecidableEq

/-- The `activities` dict: kcal burned per minute. Only the four listed
names occur as keys; the function is the lookup used below. -/
def activity_kcal_per_min (activity : String) : ℚ :=
  if activity = "Running" then 10
  else if activity = "Swimming" then 14
  else if activity = "Cycling" then 8
  else 4

/-- Loop body of `calories_to_exercise_with_distance` for one activity. -/
def exercise_entry (calories bmi age : ℚ) (activity : String) : ExerciseEntry :=
  let minutes := calories / activity_kcal_per_min activity
  let speed := estimate_speed_bmi_age activity bmi age
  let distance := (minutes / 60) * speed
  ⟨pyround minutes, pyround2 distance, speed⟩

/-- `calories_to_exercise_with_distance(calories, bmi, age)`: the result
dict, as the association list over the four activities in insertion order. -/
def calories_to_exercise_with_distance (calories bmi age : ℚ) :
    List (String × ExerciseEntry) :=
  [("Running", exercise_entry calories bmi age "Running"),
   ("Swimming", exercise_entry calories bmi age "Swimming"),
   ("Cycling", exercise_entry calories bmi age "Cycling"),
   ("Walking", exercise_entry calories bmi age "Walking")]

/-! ### Checked (ZeroDivisionError-aware) variants

These repeat the source's divisions through `pydiv`, so that an expression
evaluates to `none` exactly when Python would raise ZeroDivisionError. -/

def bounded_score_checked (x t : ℚ) : Option ℚ :=
  (pydiv x t).map fun q => min q 1

def penalized_score_checked (x t : ℚ) : Option ℚ :=
  if x > t then (pydiv x t).map fun q => max 0 (2 - q)
  else pydiv x t

def compute_target_macros_per_meal_checked (tee : ℚ) : Option MacroTargets := do
  let p ← pydiv (tee * 0.4) 4
  let p ← pydiv p 3
  let f ← pydiv (tee * 0.3) 9
  let f ← pydiv f 3
  let c ← pydiv (tee * 0.3) 4
  let c ← pydiv c 3
  pure ⟨p, f, c⟩

def exercise_entry_checked (calories bmi age : ℚ) (activity : String) :
    Option ExerciseEntry := do
  let minutes ← pydiv calories (activity_kcal_per_min activity)
  let speed := estimate_speed_bmi_age activity bmi age
  let hours ← pydiv minutes 60
  pure ⟨pyround minutes, pyround2 (hours * speed), speed⟩

def calories_to_exercise_with_distance_checked (calories bmi age : ℚ) :
    Option (List (String × ExerciseEntry)) := do
  let r ← exercise_entry_checked calories bmi age "Running"
  let s ← exercise_entry_checked calories bmi age "Swimming"
  let c ← exercise_entry_checked calories bmi age "Cycling"
  let w ← exercise_entry_checked calories bmi age "Walking"
  pure [("Running", r), ("Swimming", s), ("Cycling", c), ("Walking", w)]

/-! ## Theorems -/

/-- C4: `calculate_bmr` returns `88.362 + 13.397·weight + 4.799·height −
5.677·age` when the gender denotes male (the source compares
`gender.lower() == "male"`), and `10·weight + 6.25·height − 5·age − 161`
for any other gender value; in particular `calculate_bmr("male", 30, 180,
80)` equals `88.362 + 13.397*80 + 4.799*180 - 5.677*30` (exactly, hence to
2 decimal places; the common value is 1853.632). -/
theorem calculate_bmr_spec :
    (∀ (g : String) (a h w : ℚ), pyLower g = "male" →
        calculate_bmr g a h w = 88.362 + 13.397 * w + 4.799 * h - 5.677 * a) ∧
    (∀ (g : String) (a h w : ℚ), pyLower g ≠ "male" →
        calculate_bmr g a h w = 10 * w + 6.25 * h - 5 * a - 161) ∧
    calculate_bmr "male" 30 180 80 =
      88.362 + 13.397 * 80 + 4.799 * 180 - 5.677 * 30 ∧
    calculate_bmr "male" 30 180 80 = 1853.632 := by
  have hm : pyLower "male" = "male" := by decide
  refine ⟨?_, ?_, ?_, ?_⟩
  · intro g a h w hg
    simp [calculate_bmr, hg]
  · intro g a h w hg
    simp [calculate_bmr, hg]
  · simp [calculate_bmr, hm]
  · simp [calculate_bmr, hm]
    norm_num

/-- C4 witness: the theorem applied at gender "MALE" (lowercases to "male")
and at gender "female". -/
theorem calculate_bmr_spec_witness :
    calculate_bmr "MALE" 30 180 80 =
      88.362 + 13.397 * 80 + 4.799 * 180 - 5.677 * 30 ∧
    calculate_bmr "female" 30 180 80 = 10 * 80 + 6.25 * 180 - 5 * 30 - 161 :=
  ⟨calculate_bmr_spec.1 "MALE" 30 180 80 (by decide),
   calculate_bmr_spec.2.1 "female" 30 180 80 (by decide)⟩

/-- C10: `calculate_bmr` classifies gender case-insensitively
(`gender.lower() == "male"`) while `calculate_tee` compares `gender ==
'male'` exactly; hence every non-lowercase spelling of "male" selects the
male BMR formula but the female TEE table. -/
theorem gender_case_mismatch :
    ∀ g : String, pyLower g = "male" → g ≠ "male" →
      (∀ a h w : ℚ, calculate_bmr g a h w = calculate_bmr "male" a h w) ∧
      (∀ (a h w : ℚ) (l : String),
        calculate_tee g a h w l = calculate_tee "female" a h w l) := by
  intro g hg hne
  have hm : pyLower "male" = "male" := by decide
  constructor
  · intro a h w
    simp [calculate_bmr, hg, hm]
  · intro a h w l
    have hf : ("female" : String) ≠ "male" := by decide
    simp only [calculate_tee, if_neg hne, if_neg hf]

/-- C10 witness: at gender "Male" the BMR is the male one and the TEE the
female one; the two TEE tables genuinely differ at this input
(male active adult 3126.32 vs female active adult 2664.35). -/
theorem gender_case_mismatch_witness :
    calculate_bmr "Male" 30 180 80 = calculate_bmr "male" 30 180 80 ∧
    calculate_tee "Male" 30 180 80 "active" =
      calculate_tee "female" 30 180 80 "active" ∧
    calculate_tee "female" 30 180 80 "active" = 2664.35 ∧
    calculate_tee "male" 30 180 80 "active" = 3126.32 := by
  refine ⟨(gender_case_mismatch "Male" (by decide) (by decide)).1 30 180 80,
    (gender_case_mismatch "Male" (by decide) (by decide)).2 30 180 80 "active",
    ?_, ?_⟩
  · norm_num +decide [calculate_tee]
  · norm_num +decide [calculate_tee]

/-- C5: `compute_target_macros_per_meal` returns exactly `tee·0.4/4/3`,
`tee·0.3/9/3`, `tee·0.3/4/3`, and for tee > 0 the energy round-trip
`protein·4·3 + fat·9·3 + carbs·4·3 = tee` holds exactly over ℚ. -/
theorem compute_target_macros_per_meal_spec :
    (∀ tee : ℚ, compute_target_macros_per_meal tee =
        ⟨tee * 0.4 / 4 / 3, tee * 0.3 / 9 / 3, tee * 0.3 / 4 / 3⟩) ∧
    (∀ tee : ℚ, 0 < tee →
        (compute_target_macros_per_meal tee).protein * 4 * 3 +
          (compute_target_macros_per_meal tee).fat * 9 * 3 +
          (compute_target_macros_per_meal tee).carbs * 4 * 3 = tee) := by
  constructor
  · intro tee
    rfl
  · intro tee _
    simp only [compute_target_macros_per_meal]
    ring_nf

/-- C5 witness: the round-trip at tee = 2100 (targets 70 g protein,
70/3 ≈ 23.33 g fat, 52.5 g carbs per meal). -/
theorem compute_target_macros_per_meal_spec_witness :
    0 < (2100 : ℚ) ∧
    (compute_target_macros_per_meal 2100).protein * 4 * 3 +
      (compute_target_macros_per_meal 2100).fat * 9 * 3 +
      (compute_target_macros_per_meal 2100).carbs * 4 * 3 = 2100 :=
  ⟨by norm_num, compute_target_macros_per_meal_spec.2 2100 (by norm_num)⟩

/-- C3: `calculate_tee` is a total function following the documented
decision table: for age ≤ 2 a single per-gender infant formula independent
of the activity level; any activity level outside {"inactive",
"low active", "active"} (the spec's {inactive, low_active, active}) selects
the fourth ("other") coefficient set — all unknown strings agree with the
"very active" branch — and never fails; the age bands switch exactly at
age ≤ 2 versus age < 19 versus age ≥ 19, checked at the boundary values
2, 3, 18, 19 against the literal source coefficients. -/
theorem calculate_tee_spec :
    (∀ (g : String) (a h w : ℚ) (l l' : String), a ≤ 2 →
        calculate_tee g a h w l = calculate_tee g a h w l') ∧
    (∀ (a h w : ℚ) (l : String), a ≤ 2 →
        calculate_tee "male" a h w l =
          -716.45 - 1.00 * a + 17.82 * h + 15.06 * w) ∧
    (∀ (g : String) (a h w : ℚ) (l : String), g ≠ "male" → a ≤ 2 →
        calculate_tee g a h w l = -69.15 + 80.00 * a + 2.65 * h + 54.15 * w) ∧
    (∀ (g : String) (a h w : ℚ) (l : String),
        l ≠ "inactive" → l ≠ "low active" → l ≠ "active" →
        calculate_tee g a h w l = calculate_tee g a h w "very active") ∧
    (∀ h w : ℚ,
        calculate_tee "male" 2 h w "inactive" =
          -716.45 - 1.00 * 2 + 17.82 * h + 15.06 * w ∧
        calculate_tee "male" 3 h w "inactive" =
          -447.51 - 3.68 * 3 + 13.01 * h + 13.15 * w ∧
        calculate_tee "male" 18 h w "inactive" =
          -447.51 - 3.68 * 18 + 13.01 * h + 13.15 * w ∧
        calculate_tee "male" 19 h w "inactive" =
          753.07 - 10.83 * 19 + 6.50 * h + 14.10 * w) ∧
    (∀ h w : ℚ,
        calculate_tee "female" 2 h w "active" =
          -69.15 + 80.0 * 2 + 2.65 * h + 54.15 * w ∧
        calculate_tee "female" 3 h w "active" =
          -189.55 - 22.25 * 3 + 11.74 * h + 18.34 * w ∧
        calculate_tee "female" 18 h w "active" =
          -189.55 - 22.25 * 18 + 11.74 * h + 18.34 * w ∧
        calculate_tee "female" 19 h w "active" =
          710.25 - 7.01 * 19 + 6.54 * h + 12.34 * w) := by
  refine ⟨?_, ?_, ?_, ?_, ?_, ?_⟩
  · intro g a h w l l' ha
    simp only [calculate_tee]
    split_ifs <;> rfl
  · intro a h w l ha
    unfold calculate_tee
    rw [if_pos rfl, if_pos ha]
  · intro g a h w l hg ha
    unfold calculate_tee
    rw [if_neg hg, if_pos ha]
    norm_num
  · intro g a h w l h1 h2 h3
    have v1 : ("very active" : String) ≠ "inactive" := by decide
    have v2 : ("very active" : String) ≠ "low active" := by decide
    have v3 : ("very active" : String) ≠ "active" := by decide
    simp only [calculate_tee, if_neg h1, if_neg h2, if_neg h3,
      if_neg v1, if_neg v2, if_neg v3]
  · intro h w
    have hi1 : ¬(3 : ℚ) ≤ 2 := by norm_num
    have hi2 : ¬(18 : ℚ) ≤ 2 := by norm_num
    have hi3 : ¬(19 : ℚ) ≤ 2 := by norm_num
    refine ⟨?_, ?_, ?_, ?_⟩ <;> unfold calculate_tee
    · rw [if_pos rfl, if_pos (by norm_num : (2 : ℚ) ≤ 2)]
    · rw [if_pos rfl, if_neg hi1, if_pos (by norm_num : (3 : ℚ) < 19), if_pos rfl]
    · rw [if_pos rfl, if_neg hi2, if_pos (by norm_num : (18 : ℚ) < 19), if_pos rfl]
    · rw [if_pos rfl, if_neg hi3, if_neg (by norm_num : ¬(19 : ℚ) < 19), if_pos rfl]
  · intro h w
    have hfm : ("female" : String) ≠ "male" := by decide
    have ha1 : ("active" : String) ≠ "inactive" := by decide
    have ha2 : ("active" : String) ≠ "low active" := by decide
    have hi1 : ¬(3 : ℚ) ≤ 2 := by norm_num
    have hi2 : ¬(18 : ℚ) ≤ 2 := by norm_num
    have hi3 : ¬(19 : ℚ) ≤ 2 := by norm_num
    refine ⟨?_, ?_, ?_, ?_⟩ <;> unfold calculate_tee
    · rw [if_neg hfm, if_pos (by norm_num : (2 : ℚ) ≤ 2)]
    · rw [if_neg hfm, if_neg hi1, if_pos (by norm_num : (3 : ℚ) < 19),
        if_neg ha1, if_neg ha2, if_pos rfl]
    · rw [if_neg hfm, if_neg hi2, if_pos (by norm_num : (18 : ℚ) < 19),
        if_neg ha1, if_neg ha2, if_pos rfl]
    · rw [if_neg hfm, if_neg hi3, if_neg (by norm_num : ¬(19 : ℚ) < 19),
        if_neg ha1, if_neg ha2, if_pos rfl]

/-- C3 witness: infant activity-independence at age 1; the "other" bucket
at the unknown activity string "sedentary"; the infant male formula at
age 1. -/
theorem calculate_tee_spec_witness :
    calculate_tee "male" 1 80 10 "inactive" =
      calculate_tee "male" 1 80 10 "active" ∧
    calculate_tee "female" 30 165 60 "sedentary" =
      calculate_tee "female" 30 165 60 "very active" ∧
    calculate_tee "male" 1 80 10 "active" =
      -716.45 - 1.00 * 1 + 17.82 * 80 + 15.06 * 10 ∧
    calculate_tee "female" 0.5 70 8 "whatever" =
      -69.15 + 80.00 * 0.5 + 2.65 * 70 + 54.15 * 8 :=
  ⟨calculate_tee_spec.1 "male" 1 80 10 "inactive" "active" (by norm_num),
   calculate_tee_spec.2.2.2.1 "female" 30 165 60 "sedentary"
     (by decide) (by decide) (by decide),
   calculate_tee_spec.2.1 1 80 10 "active" (by norm_num),
   calculate_tee_spec.2.2.1 "female" 0.5 70 8 "whatever"
     (by decide) (by norm_num)⟩

/-- C2: for positive targets and tee, the Protein Score of a scored row is
`min(protein/target, 1)` — exactly 1 whenever protein ≥ target and
`protein/target` (< 1) below it; the Calories, Fat and Carbs Scores use the
penalized shape — `value/target` when value ≤ target, `max(0, 2 −
value/target)` when value > target, 0 at value = 2·target and 0 for any
larger value; and the Calories Score is computed against the full daily
`tee`, not a per-meal target. -/
theorem score_menu_score_shapes :
    (∀ x t : ℚ, 0 < t →
        bounded_score x t = min (x / t) 1 ∧
        (t ≤ x → bounded_score x t = 1) ∧
        (x < t → bounded_score x t = x / t ∧ bounded_score x t < 1) ∧
        (x ≤ t → penalized_score x t = x / t) ∧
        (t < x → penalized_score x t = max 0 (2 - x / t)) ∧
        penalized_score (2 * t) t = 0 ∧
        (2 * t < x → penalized_score x t = 0)) ∧
    (∀ (targets : MacroTargets) (tee : ℚ) (w : Weights) (r : NutrientRow),
        (scoreRow targets tee w r).caloriesScore =
          penalized_score r.calories tee ∧
        (scoreRow targets tee w r).proteinScore =
          bounded_score r.protein targets.protein ∧
        (scoreRow targets tee w r).fatScore =
          penalized_score r.fat targets.fat ∧
        (scoreRow targets tee w r).carbsScore =
          penalized_score r.carbs targets.carbs) := by
  constructor
  · intro x t ht
    have ht' : t ≠ 0 := ne_of_gt ht
    refine ⟨rfl, ?_, ?_, ?_, ?_, ?_, ?_⟩
    · intro hxt
      have : (1 : ℚ) ≤ x / t := (one_le_div ht).mpr hxt
      simp [bounded_score, min_eq_right this]
    · intro hxt
      have hlt : x / t < 1 := (div_lt_one ht).mpr hxt
      constructor
      · simp [bounded_score, min_eq_left hlt.le]
      · simpa [bounded_score, min_eq_left hlt.le] using hlt
    · intro hxt
      simp [penalized_score, not_lt.mpr hxt]
    · intro hxt
      simp [penalized_score, hxt]
    · have h2t : t < 2 * t := by linarith
      have : (2 * t) / t = 2 := by field_simp
      simp [penalized_score, h2t, this]
    · intro hxt
      have h1 : t < x := by linarith
      have h2 : (2 : ℚ) ≤ x / t := by
        rw [le_div_iff₀ ht]; linarith
      simp only [penalized_score, if_pos h1]
      have : 2 - x / t ≤ 0 := by linarith
      simp [max_eq_left this]
  · intro targets tee w r
    exact ⟨rfl, rfl, rfl, rfl⟩

/-- C2 witness: the shapes at target 20 / tee 600 — protein 30 over the
20 g target scores 1, protein 10 scores 1/2, fat at twice its 10 g target
scores 0, calories 1800 = 3·tee scores 0, and the Calories Score of a
concrete row is the penalized score of its Calories against tee = 600. -/
theorem score_menu_score_shapes_witness :
    bounded_score 30 20 = 1 ∧
    (bounded_score 10 20 = 10 / 20 ∧ bounded_score 10 20 < 1) ∧
    penalized_score (2 * 10) 10 = 0 ∧
    penalized_score 1800 600 = 0 ∧
    (scoreRow ⟨20, 10, 40⟩ 600 ⟨0.2, 0.4, 0.2, 0.2⟩
        ⟨"A", 1, "", 100, 10, 5, 20, 0, 0, 0⟩).caloriesScore =
      penalized_score 100 600 :=
  ⟨(score_menu_score_shapes.1 30 20 (by norm_num)).2.1 (by norm_num),
   (score_menu_score_shapes.1 10 20 (by norm_num)).2.2.1 (by norm_num),
   (score_menu_score_shapes.1 0 10 (by norm_num)).2.2.2.2.2.1,
   (score_menu_score_shapes.1 1800 600 (by norm_num)).2.2.2.2.2.2 (by norm_num),
   (score_menu_score_shapes.2 ⟨20, 10, 40⟩ 600 ⟨0.2, 0.4, 0.2, 0.2⟩
      ⟨"A", 1, "", 100, 10, 5, 20, 0, 0, 0⟩).1⟩

/-- C6: `score_menu` fails (KeyError on the weights dict, the spec's
InvalidGoal) precisely when the goal is neither "muscle_gain" nor
"fat_loss"; for "muscle_gain" every output row's Total Score is the
weighted sum with weights [calories 0.2, protein 0.4, fat 0.2, carbs 0.2],
for "fat_loss" with weights [calories 0.3, protein 0.4, fat 0.3,
carbs 0.2]. -/
theorem score_menu_goal_spec :
    (∀ (df : List NutrientRow) (targets : MacroTargets) (tee : ℚ)
        (goal : String),
        score_menu df targets tee goal = none ↔
          goal ≠ "muscle_gain" ∧ goal ≠ "fat_loss") ∧
    (∀ (df : List NutrientRow) (targets : MacroTargets) (tee : ℚ)
        (out : List ScoredRow),
        score_menu df targets tee "muscle_gain" = some out →
        ∀ s ∈ out, s.totalScore =
          s.caloriesScore * 0.2 + s.proteinScore * 0.4 +
            s.fatScore * 0.2 + s.carbsScore * 0.2) ∧
    (∀ (df : List NutrientRow) (targets : MacroTargets) (tee : ℚ)
        (out : List ScoredRow),
        score_menu df targets tee "fat_loss" = some out →
        ∀ s ∈ out, s.totalScore =
          s.caloriesScore * 0.3 + s.proteinScore * 0.4 +
            s.fatScore * 0.3 + s.carbsScore * 0.2) := by
  refine ⟨?_, ?_, ?_⟩
  · intro df targets tee goal
    simp only [score_menu, goalWeights]
    split_ifs with h1 h2 <;> simp_all
  · intro df targets tee out hout s hs
    have hw : goalWeights "muscle_gain" = some ⟨0.2, 0.4, 0.2, 0.2⟩ := rfl
    simp only [score_menu, hw, Option.map_some', Option.some_inj] at hout
    subst hout
    simp only [sort_values_desc, List.mem_reverse, List.mem_insertionSort,
      List.mem_map] at hs
    obtain ⟨r, _, rfl⟩ := hs
    rfl
  · intro df targets tee out hout s hs
    have hw : goalWeights "fat_loss" = some ⟨0.3, 0.4, 0.3, 0.2⟩ := rfl
    simp only [score_menu, hw, Option.map_some', Option.some_inj] at hout
    subst hout
    simp only [sort_values_desc, List.mem_reverse, List.mem_insertionSort,
      List.mem_map] at hs
    obtain ⟨r, _, rfl⟩ := hs
    rfl

/-- C6 witness: "bogus" is rejected; on a one-row table with goal
"muscle_gain" the output row's Total Score is the 0.2/0.4/0.2/0.2 weighted
sum of its four nutrient scores. -/
theorem score_menu_goal_spec_witness :
    score_menu [⟨"A", 1, "", 100, 10, 5, 20, 0, 0, 0⟩] ⟨20, 10, 40⟩ 600
        "bogus" = none ∧
    ∀ s ∈ sort_values_desc
        (([⟨"A", 1, "", 100, 10, 5, 20, 0, 0, 0⟩] : List NutrientRow).map
          (scoreRow ⟨20, 10, 40⟩ 600 ⟨0.2, 0.4, 0.2, 0.2⟩)),
      s.totalScore =
        s.caloriesScore * 0.2 + s.proteinScore * 0.4 +
          s.fatScore * 0.2 + s.carbsScore * 0.2 :=
  ⟨(score_menu_goal_spec.1 [⟨"A", 1, "", 100, 10, 5, 20, 0, 0, 0⟩]
      ⟨20, 10, 40⟩ 600 "bogus").mpr ⟨by decide, by decide⟩,
   score_menu_goal_spec.2.1 [⟨"A", 1, "", 100, 10, 5, 20, 0, 0, 0⟩]
     ⟨20, 10, 40⟩ 600 _ rfl⟩

/-- C7 counterexample: the per-nutrient scoring functions are NOT total
over their numeric domain — their denominators are the caller-supplied
target and tee, not fixed constants, and at denominator 0 Python raises
ZeroDivisionError (modelled by `none`): `penalized_score(100, 0)` (the
Calories Score with tee = 0) and `bounded_score(50, 0)` (the Protein Score
with a zero protein target) both fail. -/
theorem formula_totality_counterexample :
    penalized_score_checked 100 0 = none ∧
    bounded_score_checked 50 0 = none := by
  constructor
  · simp [penalized_score_checked, pydiv]
  · simp [bounded_score_checked, pydiv]

/-- C7 amended: the formula functions whose denominators really are fixed
non-zero constants — `compute_target_macros_per_meal` (4, 9, 3) and
`calories_to_exercise_with_distance` (10, 14, 8, 4 and 60) — are total:
their division-checked variants always return a value (`calculate_bmr` and
`calculate_tee` contain no division at all and are total by construction).
The scoring functions `bounded_score` and `penalized_score` divide by the
supplied target/tee and are total exactly on nonzero denominators: they
fail at denominator 0. -/
theorem formula_totality_amended :
    (∀ tee : ℚ, compute_target_macros_per_meal_checked tee =
        some (compute_target_macros_per_meal tee)) ∧
    (∀ calories bmi age : ℚ,
        calories_to_exercise_with_distance_checked calories bmi age =
          some (calories_to_exercise_with_distance calories bmi age)) ∧
    (∀ x t : ℚ, t ≠ 0 →
        bounded_score_checked x t = some (bounded_score x t) ∧
        penalized_score_checked x t = some (penalized_score x t)) ∧
    (∀ x : ℚ, bounded_score_checked x 0 = none ∧
        penalized_score_checked x 0 = none) := by
  refine ⟨?_, ?_, ?_, ?_⟩
  · intro tee
    simp only [compute_target_macros_per_meal_checked, pydiv,
      compute_target_macros_per_meal]
    norm_num
  · intro calories bmi age
    simp only [calories_to_exercise_with_distance_checked,
      exercise_entry_checked, pydiv, calories_to_exercise_with_distance,
      exercise_entry, activity_kcal_per_min]
    norm_num +decide
  · intro x t ht
    constructor
    · simp [bounded_score_checked, bounded_score, pydiv, ht]
    · simp only [penalized_score_checked, penalized_score, pydiv, if_neg ht]
      split_ifs <;> rfl
  · intro x
    constructor
    · simp [bounded_score_checked, pydiv]
    · simp [penalized_score_checked, pydiv]

/-- C7 amended witness: totality at concrete inputs — the checked macro
targets at tee = 2100, the checked exercise plan at (600, 22, 25), and the
checked scoring functions at the nonzero denominator 20. -/
theorem formula_totality_amended_witness :
    compute_target_macros_per_meal_checked 2100 =
      some (compute_target_macros_per_meal 2100) ∧
    calories_to_exercise_with_distance_checked 600 22 25 =
      some (calories_to_exercise_with_distance 600 22 25) ∧
    bounded_score_checked 30 20 = some (bounded_score 30 20) ∧
    penalized_score_checked 30 20 = some (penalized_score 30 20) :=
  ⟨formula_totality_amended.1 2100,
   formula_totality_amended.2.1 600 22 25,
   (formula_totality_amended.2.2.1 30 20 (by norm_num)).1,
   (formula_totality_amended.2.2.1 30 20 (by norm_num)).2⟩

/-- C9: `estimate_speed_bmi_age` starts from base speed Running 9.0,
Swimming 3.0, Cycling 15.0, Walking 5.0 km/h — 5.0 for an unrecognized
activity, without error — multiplies by 0.9 exactly when bmi > 25 and by
0.95 exactly when age > 40, and rounds the result to 2 decimal places;
estimate_speed_bmi_age("Running", 28, 45) = round(9.0·0.9·0.95, 2) =
round(7.695, 2) = 7.7. -/
theorem estimate_speed_bmi_age_spec :
    (∀ (activity : String) (bmi age : ℚ),
        estimate_speed_bmi_age activity bmi age =
          pyround2 (base_speeds activity * (if bmi > 25 then 0.9 else 1) *
            (if age > 40 then 0.95 else 1))) ∧
    base_speeds "Running" = 9.0 ∧ base_speeds "Swimming" = 3.0 ∧
    base_speeds "Cycling" = 15.0 ∧ base_speeds "Walking" = 5.0 ∧
    (∀ activity : String,
        activity ∉ (["Running", "Swimming", "Cycling", "Walking"] :
          List String) → base_speeds activity = 5.0) ∧
    (9.0 * 0.9 * 0.95 : ℚ) = 7.695 ∧
    estimate_speed_bmi_age "Running" 28 45 = pyround2 7.695 ∧
    estimate_speed_bmi_age "Running" 28 45 = 7.7 := by
  have hrun : estimate_speed_bmi_age "Running" 28 45 = 7.7 := by
    norm_num +decide [estimate_speed_bmi_age, base_speeds, pyround2, pyround]
  refine ⟨?_, rfl, by norm_num +decide [base_speeds],
    by norm_num +decide [base_speeds], by norm_num +decide [base_speeds],
    ?_, by norm_num, ?_, hrun⟩
  · intro activity bmi age
    simp only [estimate_speed_bmi_age]
    split_ifs <;> first | rfl | (congr 1; ring)
  · intro activity hact
    simp only [List.mem_cons, List.not_mem_nil, or_false, not_or] at hact
    obtain ⟨h1, h2, h3, h4⟩ := hact
    simp [base_speeds, h1, h2, h3, h4]
  · rw [hrun]
    norm_num [pyround2, pyround]

/-- C9 witness: the default base speed at the unknown activity "Yoga", and
the multiplicative form at ("Cycling", 30, 50). -/
theorem estimate_speed_bmi_age_spec_witness :
    base_speeds "Yoga" = 5.0 ∧
    estimate_speed_bmi_age "Cycling" 30 50 =
      pyround2 (base_speeds "Cycling" * (if (30 : ℚ) > 25 then 0.9 else 1) *
        (if (50 : ℚ) > 40 then 0.95 else 1)) :=
  ⟨estimate_speed_bmi_age_spec.2.2.2.2.2.1 "Yoga" (by decide),
   estimate_speed_bmi_age_spec.1 "Cycling" 30 50⟩

/-- C8: `calories_to_exercise_with_distance` returns the four activities
with kcal/min rates Running 10, Swimming 14, Cycling 8, Walking 4; each
entry's time_min is `round(calories / rate)` and its distance_km is
`round((unrounded minutes / 60) · adjusted speed, 2)` — the unrounded
minutes value is used for the distance; calories = 0 gives 0 minutes and
0 distance everywhere; negative calories propagate unvalidated (at
(-600, 22, 25) Walking gives -150 min, -12.5 km); and at (600, 22, 25)
Walking has speed 5.0, 150 minutes and 12.5 km. -/
theorem calories_to_exercise_with_distance_spec :
    (∀ calories bmi age : ℚ,
        (calories_to_exercise_with_distance calories bmi age).map Prod.fst =
          ["Running", "Swimming", "Cycling", "Walking"]) ∧
    activity_kcal_per_min "Running" = 10 ∧
    activity_kcal_per_min "Swimming" = 14 ∧
    activity_kcal_per_min "Cycling" = 8 ∧
    activity_kcal_per_min "Walking" = 4 ∧
    (∀ (calories bmi age : ℚ) (act : String) (e : ExerciseEntry),
        (act, e) ∈ calories_to_exercise_with_distance calories bmi age →
        e.time_min = pyround (calories / activity_kcal_per_min act) ∧
        e.speed_kmh = estimate_speed_bmi_age act bmi age ∧
        e.distance_km =
          pyround2 (calories / activity_kcal_per_min act / 60 * e.speed_kmh)) ∧
    (∀ (bmi age : ℚ) (act : String) (e : ExerciseEntry),
        (act, e) ∈ calories_to_exercise_with_distance 0 bmi age →
        e.time_min = 0 ∧ e.distance_km = 0) ∧
    (∀ (bmi age : ℚ) (e : ExerciseEntry), bmi ≤ 25 → age ≤ 40 →
        ("Walking", e) ∈ calories_to_exercise_with_distance 600 bmi age →
        e.speed_kmh = 5.0 ∧ e.time_min = 150 ∧ e.distance_km = 12.5) ∧
    (∀ e : ExerciseEntry,
        ("Walking", e) ∈ calories_to_exercise_with_distance (-600) 22 25 →
        e.time_min = -150 ∧ e.distance_km = -12.5) := by
  refine ⟨fun _ _ _ => rfl, by norm_num +decide [activity_kcal_per_min],
    by norm_num +decide [activity_kcal_per_min],
    by norm_num +decide [activity_kcal_per_min],
    by norm_num +decide [activity_kcal_per_min], ?_, ?_, ?_, ?_⟩
  · intro calories bmi age act e hmem
    simp only [calories_to_exercise_with_distance, List.mem_cons,
      List.not_mem_nil, or_false] at hmem
    rcases hmem with h | h | h | h <;>
      · injection h with h1 h2
        subst h1; subst h2
        exact ⟨rfl, rfl, rfl⟩
  · intro bmi age act e hmem
    simp only [calories_to_exercise_with_distance, List.mem_cons,
      List.not_mem_nil, or_false] at hmem
    rcases hmem with h | h | h | h <;>
      · injection h with h1 h2
        subst h1; subst h2
        refine ⟨?_, ?_⟩ <;>
          norm_num +decide [exercise_entry, activity_kcal_per_min,
            pyround2, pyround]
  · intro bmi age e hb ha hmem
    have hb' : ¬bmi > 25 := not_lt.mpr hb
    have ha' : ¬age > 40 := not_lt.mpr ha
    have hsp : estimate_speed_bmi_age "Walking" bmi age = 5 := by
      norm_num +decide [estimate_speed_bmi_age, base_speeds, hb', ha',
        pyround2, pyround]
    simp only [calories_to_exercise_with_distance, List.mem_cons,
      List.not_mem_nil, or_false] at hmem
    rcases hmem with h | h | h | h <;> injection h with h1 h2
    · exact absurd h1 (by decide)
    · exact absurd h1 (by decide)
    · exact absurd h1 (by decide)
    · subst h2
      refine ⟨?_, ?_, ?_⟩ <;>
        norm_num +decide [exercise_entry, activity_kcal_per_min, hsp,
          pyround2, pyround]
  · intro e hmem
    simp only [calories_to_exercise_with_distance, List.mem_cons,
      List.not_mem_nil, or_false] at hmem
    rcases hmem with h | h | h | h <;> injection h with h1 h2
    · exact absurd h1 (by decide)
    · exact absurd h1 (by decide)
    · exact absurd h1 (by decide)
    · subst h2
      refine ⟨?_, ?_⟩ <;>
        norm_num +decide [exercise_entry, activity_kcal_per_min,
          estimate_speed_bmi_age, base_speeds, pyround2, pyround]

/-- C8 witness: the per-entry formulas at the Running entry of
(600, 22, 25); the zero-calories case at the Cycling entry; the Walking
example at (600, 22, 25). -/
theorem calories_to_exercise_with_distance_spec_witness :
    ((exercise_entry 600 22 25 "Running").time_min =
        pyround (600 / activity_kcal_per_min "Running") ∧
      (exercise_entry 600 22 25 "Running").speed_kmh =
        estimate_speed_bmi_age "Running" 22 25 ∧
      (exercise_entry 600 22 25 "Running").distance_km =
        pyround2 (600 / activity_kcal_per_min "Running" / 60 *
          (exercise_entry 600 22 25 "Running").speed_kmh)) ∧
    ((exercise_entry 0 22 25 "Cycling").time_min = 0 ∧
      (exercise_entry 0 22 25 "Cycling").distance_km = 0) ∧
    ((exercise_entry 600 22 25 "Walking").speed_kmh = 5.0 ∧
      (exercise_entry 600 22 25 "Walking").time_min = 150 ∧
      (exercise_entry 600 22 25 "Walking").distance_km = 12.5) :=
  ⟨calories_to_exercise_with_distance_spec.2.2.2.2.2.1 600 22 25 "Running"
      (exercise_entry 600 22 25 "Running") (by simp
        [calories_to_exercise_with_distance]),
   calories_to_exercise_with_distance_spec.2.2.2.2.2.2.1 22 25 "Cycling"
      (exercise_entry 0 22 25 "Cycling") (by simp
        [calories_to_exercise_with_distance]),
   calories_to_exercise_with_distance_spec.2.2.2.2.2.2.2.1 22 25
      (exercise_entry 600 22 25 "Walking") (by norm_num) (by norm_num)
      (by simp [calories_to_exercise_with_distance])⟩

/-- C1 counterexample: stability fails. On the two-row table
[A, B] with identical nutrient values (so equal Total Scores), a valid
goal, positive targets and tee, `score_menu` returns the rows in order
[B, A] — rows with equal Total Score do NOT retain their input order.
pandas implements `sort_values(..., ascending=False)` as a stable
ascending argsort (numpy's sort is insertion sort below 16 elements)
followed by reversal of the indexer, which reverses ties. -/
theorem score_menu_stability_counterexample :
    (score_menu [⟨"A", 1, "", 100, 10, 5, 20, 0, 0, 0⟩,
        ⟨"B", 2, "", 100, 10, 5, 20, 0, 0, 0⟩] ⟨20, 10, 40⟩ 600
        "muscle_gain").map (List.map fun s => s.row.food) =
      some ["B", "A"] ∧
    (scoreRow ⟨20, 10, 40⟩ 600 ⟨0.2, 0.4, 0.2, 0.2⟩
        ⟨"A", 1, "", 100, 10, 5, 20, 0, 0, 0⟩).totalScore =
      (scoreRow ⟨20, 10, 40⟩ 600 ⟨0.2, 0.4, 0.2, 0.2⟩
        ⟨"B", 2, "", 100, 10, 5, 20, 0, 0, 0⟩).totalScore := by
  constructor
  · norm_num +decide [score_menu, goalWeights, sort_values_desc, scoreLE,
      scoreRow, bounded_score, penalized_score]
  · rfl

/-- C1 amended: every sequence returned by `score_menu` is ordered
descending by Total Score and is a permutation of the input rows (the same
multiset of rows, hence of Food/FDC_ID values); rows with equal Total
Score do not retain their input order (the descending sort reverses a
stable ascending sort, so on small tables ties appear in reversed input
order). -/
theorem score_menu_sorted_perm :
    ∀ (df : List NutrientRow) (targets : MacroTargets) (tee : ℚ)
      (goal : String) (out : List ScoredRow),
      score_menu df targets tee goal = some out →
      out.Sorted (fun s1 s2 => s2.totalScore ≤ s1.totalScore) ∧
      (out.map fun s => s.row).Perm df := by
  intro df targets tee goal out hout
  simp only [score_menu, Option.map_eq_some'] at hout
  obtain ⟨w, hw, rfl⟩ := hout
  constructor
  · exact List.pairwise_reverse.mpr (List.sorted_insertionSort scoreLE _)
  · rw [sort_values_desc, List.map_reverse]
    refine (List.reverse_perm _).trans ?_
    refine ((List.perm_insertionSort scoreLE _).map _).trans ?_
    rw [List.map_map]
    have h : ((fun s : ScoredRow => s.row) ∘ scoreRow targets tee w) = id := by
      funext r; rfl
    rw [h, List.map_id]

/-- C1 amended witness: the sortedness and multiset-preservation at the
concrete two-row table of the counterexample. -/
theorem score_menu_sorted_perm_witness :
    (sort_values_desc
        (([⟨"A", 1, "", 100, 10, 5, 20, 0, 0, 0⟩,
           ⟨"B", 2, "", 100, 10, 5, 20, 0, 0, 0⟩] : List NutrientRow).map
          (scoreRow ⟨20, 10, 40⟩ 600 ⟨0.2, 0.4, 0.2, 0.2⟩))).Sorted
      (fun s1 s2 => s2.totalScore ≤ s1.totalScore) ∧
    ((sort_values_desc
        (([⟨"A", 1, "", 100, 10, 5, 20, 0, 0, 0⟩,
           ⟨"B", 2, "", 100, 10, 5, 20, 0, 0, 0⟩] : List NutrientRow).map
          (scoreRow ⟨20, 10, 40⟩ 600 ⟨0.2, 0.4, 0.2, 0.2⟩))).map
      fun s => s.row).Perm
      [⟨"A", 1, "", 100, 10, 5, 20, 0, 0, 0⟩,
       ⟨"B", 2, "", 100, 10, 5, 20, 0, 0, 0⟩] :=
  score_menu_sorted_perm
    [⟨"A", 1, "", 100, 10, 5, 20, 0, 0, 0⟩,
     ⟨"B", 2, "", 100, 10, 5, 20, 0, 0, 0⟩]
    ⟨20, 10, 40⟩ 600 "muscle_gain" _ rfl

end Pynut
